import Mathlib

/-!
Shallow embedding of the licensing-server core (seat allocation, heartbeat,
release, trial gating) from `src/services/license_service.py`,
`src/services/trial_service.py` and `src/services/audit_service.py`.

Time is modelled as epoch milliseconds (`Int`).  The relational store is a
record of lists of rows; SQL reads become list lookups and SQL writes become
list updates, mirroring each statement of the source.  The audit insert can
fail (the Python code wraps it in try/except); the Boolean `audit_ok`
parameter says whether that insert succeeds, and a failed insert leaves the
log untouched and raises nothing, exactly like the except branch.
-/

/-- Configuration derived from `config.py`: `HEARTBEAT_TTL_MS =
HEARTBEAT_TTL_SECONDS * 1000` and `TRIAL_DURATION_MS = TRIAL_DURATION_SECONDS
* 1000 if TRIAL_DURATION_SECONDS > 0 else None`. -/
structure Config where
  heartbeat_ttl_ms : Int
  trial_duration_ms : Option Int
deriving Repr, DecidableEq

/-- Build a `Config` the way `license_service.py` / `trial_service.py` derive
their module constants from the two config values in seconds. -/
def Config.ofSeconds (heartbeat_ttl_seconds trial_duration_seconds : Int) : Config :=
  { heartbeat_ttl_ms := heartbeat_ttl_seconds * 1000
    trial_duration_ms :=
      if trial_duration_seconds > 0 then some (trial_duration_seconds * 1000) else none }

/-- A row of `license_entitlements` (the columns the services read). -/
structure Entitlement where
  id : Nat
  org_id : String
  license_key : String
  max_seats : Nat
  valid_from : Option Int
  valid_until : Option Int
  status : String
deriving Repr, DecidableEq

/-- A row of `seat_allocations`. -/
structure SeatAllocation where
  id : Nat
  entitlement_id : Nat
  org_id : Option String
  device_id : String
  hostname : Option String
  os : Option String
  app_version : Option String
  client_ip : Option String
  allocated_at : Int
  last_heartbeat_at : Option Int
  updated_at : Option Int
deriving Repr, DecidableEq

/-- Device metadata recorded by the trial gate (`hostname`/`os`/`app_version`). -/
structure Metadata where
  hostname : Option String
  os : Option String
  app_version : Option String
deriving Repr, DecidableEq

/-- A row of `devices` (trial gating only). -/
structure Device where
  device_id : String
  org_id : Option String
  first_seen_at : Int
  last_seen_at : Int
  trial_used_at : Option Int
  metadata : Option Metadata
deriving Repr, DecidableEq

/-- A row of `audit_log` as written by `audit_service.audit`; the payload dict
is modelled as a key/value list, stored as `none` when the dict is falsy. -/
structure AuditEvent where
  action : String
  entity_type : Option String
  entity_id : Option String
  payload : Option (List (String × String))
  client_ip : Option String
deriving Repr, DecidableEq

/-- The relational store: one list per table, plus the AUTO_INCREMENT counter
for `seat_allocations.id` (`lastrowid` of the insert). -/
structure St where
  entitlements : List Entitlement
  seats : List SeatAllocation
  devices : List Device
  audit_log : List AuditEvent
  next_seat_id : Nat
deriving Repr, DecidableEq

/-- The body of a license call (`license_id`, `org_id`, `device_id` are
checked for presence by the middleware), plus the resolved client IP. -/
structure LicenseRequest where
  license_id : String
  org_id : String
  device_id : String
  hostname : Option String
  os : Option String
  app_version : Option String
  client_ip : Option String
deriving Repr, DecidableEq

/-- The body of a trial call plus the resolved client IP. -/
structure TrialRequest where
  device_id : String
  org_id : Option String
  hostname : Option String
  os : Option String
  app_version : Option String
  client_ip : Option String
deriving Repr, DecidableEq

/-- The `allocation` object of a license `Outcome`: the keys the code actually
puts in the returned dict.  `was_stale` is `none` when the key is absent. -/
structure Allocation where
  seat_id : Nat
  reattach : Bool
  was_stale : Option Bool
deriving Repr, DecidableEq

/-- The dict returned by `validate` / `heartbeat` / `release`. -/
structure Outcome where
  success : Bool
  error : Option String := none
  allocation : Option Allocation := none
deriving Repr, DecidableEq

/-- The dict returned by `validate_trial`.  `expires_at` is `none` both when
the key is absent and when its value is `null`. -/
structure TrialOutcome where
  success : Bool
  error : Option String := none
  trial_active : Option Bool := none
  first_use : Option Bool := none
  expires_at : Option Int := none
deriving Repr, DecidableEq

/-- Models the Python idiom `x or None` for an optional string: the empty string is falsy. -/
def py_or_none (s : Option String) : Option String :=
  match s with
  | some "" => none
  | x => x

/-- Embeds `audit_service.audit`: insert into `audit_log` inside try/except.  When the
insert raises (`ok = false`) the exception is swallowed and the log is
unchanged; nothing ever propagates to the caller. -/
def audit (ok : Bool) (ev : AuditEvent) (log : List AuditEvent) : List AuditEvent :=
  if ok then log ++ [ev] else log

/-- Wrap a payload dict the way `audit` stores it: a falsy (empty) dict
becomes SQL NULL. -/
def payload_opt (kvs : List (String × String)) : Option (List (String × String)) :=
  if kvs.isEmpty then none else some kvs

/-- Embeds `license_service.is_allocation_active`: true iff `last_heartbeat_at` is
present and strictly within TTL of now (the code compares
`(now - ts) * 1000 < HEARTBEAT_TTL_MS` on seconds; here both sides are in
milliseconds). -/
def is_allocation_active (cfg : Config) (now : Int) (last_heartbeat_at : Option Int) : Bool :=
  match last_heartbeat_at with
  | none => false
  | some ts => decide (now - ts < cfg.heartbeat_ttl_ms)

/-- The guard `valid_until and valid_until < now` of `validate`. -/
def window_expired (now : Int) (valid_until : Option Int) : Bool :=
  match valid_until with
  | some vu => decide (vu < now)
  | none => false

/-- The guard `valid_from and valid_from > now` of `validate`. -/
def window_not_yet_valid (now : Int) (valid_from : Option Int) : Bool :=
  match valid_from with
  | some vf => decide (vf > now)
  | none => false

/-- The column values written by the UPDATE statement that `validate` (both
the reattach and the stale-refresh branch) and `heartbeat` run on an existing
`seat_allocations` row. -/
def refreshed_row (req : LicenseRequest) (now : Int) (r : SeatAllocation) : SeatAllocation :=
  { r with
    last_heartbeat_at := some now
    hostname := py_or_none req.hostname
    os := py_or_none req.os
    app_version := py_or_none req.app_version
    client_ip := req.client_ip
    updated_at := some now }

/-- Apply that UPDATE to the table: only the row with `id = seat_id` changes. -/
def refresh_seat (req : LicenseRequest) (now : Int) (seat_id : Nat) (r : SeatAllocation) :
    SeatAllocation :=
  if r.id == seat_id then refreshed_row req now r else r

/-- Embeds `license_service.validate`: entitlement lookup and checks, then seat
reattach / capacity check / stale-refresh / insert, in the branch order of
the source (the capacity branch requires `not existing`, so matching on
`existing` first splits the same four cases). -/
def validate (cfg : Config) (audit_ok : Bool) (now : Int) (req : LicenseRequest) (st : St) :
    Outcome × St :=
  match st.entitlements.find? (fun e => e.license_key == req.license_id) with
  | none =>
      let ev : AuditEvent :=
        { action := "validate_fail", entity_type := some "entitlement", entity_id := none
          payload := payload_opt [("reason", "license_not_found"), ("license_key", req.license_id)]
          client_ip := req.client_ip }
      ({ success := false, error := some "License not found" },
       { st with audit_log := audit audit_ok ev st.audit_log })
  | some ent =>
    if ent.status != "active" then
      let ev : AuditEvent :=
        { action := "validate_fail", entity_type := some "entitlement"
          entity_id := some (toString ent.id)
          payload := payload_opt [("reason", "license_inactive"), ("status", ent.status)]
          client_ip := req.client_ip }
      ({ success := false, error := some "License is not active" },
       { st with audit_log := audit audit_ok ev st.audit_log })
    else if ent.org_id != req.org_id then
      let ev : AuditEvent :=
        { action := "validate_fail", entity_type := some "entitlement"
          entity_id := some (toString ent.id)
          payload := payload_opt [("reason", "org_mismatch")]
          client_ip := req.client_ip }
      ({ success := false, error := some "Organization does not match license" },
       { st with audit_log := audit audit_ok ev st.audit_log })
    else if window_expired now ent.valid_until then
      let ev : AuditEvent :=
        { action := "validate_fail", entity_type := some "entitlement"
          entity_id := some (toString ent.id)
          payload := payload_opt [("reason", "license_expired")]
          client_ip := req.client_ip }
      ({ success := false, error := some "License has expired" },
       { st with audit_log := audit audit_ok ev st.audit_log })
    else if window_not_yet_valid now ent.valid_from then
      let ev : AuditEvent :=
        { action := "validate_fail", entity_type := some "entitlement"
          entity_id := some (toString ent.id)
          payload := payload_opt [("reason", "license_not_yet_valid")]
          client_ip := req.client_ip }
      ({ success := false, error := some "License is not yet valid" },
       { st with audit_log := audit audit_ok ev st.audit_log })
    else
      match (st.seats.filter (fun r => r.entitlement_id == ent.id)).find?
          (fun r => r.device_id == req.device_id) with
      | some ex =>
        if is_allocation_active cfg now ex.last_heartbeat_at then
          let ev : AuditEvent :=
            { action := "validate_success", entity_type := some "seat_allocation"
              entity_id := some (toString ex.id)
              payload := payload_opt [("reattach", "True")]
              client_ip := req.client_ip }
          ({ success := true
             allocation := some { seat_id := ex.id, reattach := true, was_stale := none } },
           { st with
             seats := st.seats.map (refresh_seat req now ex.id)
             audit_log := audit audit_ok ev st.audit_log })
        else
          let ev : AuditEvent :=
            { action := "validate_success", entity_type := some "seat_allocation"
              entity_id := some (toString ex.id)
              payload := payload_opt [("reattach", "False"), ("was_stale", "True")]
              client_ip := req.client_ip }
          ({ success := true
             allocation := some { seat_id := ex.id, reattach := false, was_stale := none } },
           { st with
             seats := st.seats.map (refresh_seat req now ex.id)
             audit_log := audit audit_ok ev st.audit_log })
      | none =>
        let active_count :=
          ((st.seats.filter (fun r => r.entitlement_id == ent.id)).filter
            (fun r => is_allocation_active cfg now r.last_heartbeat_at)).length
        if active_count ≥ ent.max_seats then
          let ev : AuditEvent :=
            { action := "validate_fail", entity_type := some "entitlement"
              entity_id := some (toString ent.id)
              payload := payload_opt
                [("reason", "max_seats_exceeded"), ("active", toString active_count),
                 ("max", toString ent.max_seats)]
              client_ip := req.client_ip }
          ({ success := false, error := some "No seats available. Maximum active seats in use." },
           { st with audit_log := audit audit_ok ev st.audit_log })
        else
          let row : SeatAllocation :=
            { id := st.next_seat_id, entitlement_id := ent.id, org_id := some req.org_id
              device_id := req.device_id, hostname := py_or_none req.hostname
              os := py_or_none req.os, app_version := py_or_none req.app_version
              client_ip := req.client_ip, allocated_at := now
              last_heartbeat_at := some now, updated_at := none }
          let ev : AuditEvent :=
            { action := "validate_success", entity_type := some "seat_allocation"
              entity_id := some (toString st.next_seat_id)
              payload := payload_opt [("reattach", "False")]
              client_ip := req.client_ip }
          ({ success := true
             allocation := some { seat_id := st.next_seat_id, reattach := false, was_stale := none } },
           { st with
             seats := st.seats ++ [row]
             next_seat_id := st.next_seat_id + 1
             audit_log := audit audit_ok ev st.audit_log })

/-- Embeds `license_service.heartbeat`. -/
def heartbeat (cfg : Config) (audit_ok : Bool) (now : Int) (req : LicenseRequest) (st : St) :
    Outcome × St :=
  match st.entitlements.find?
      (fun e => e.license_key == req.license_id && e.org_id == req.org_id && e.status == "active") with
  | none =>
      ({ success := false, error := some "License not found or not active for this organization" }, st)
  | some ent =>
    match st.seats.find? (fun r => r.entitlement_id == ent.id && r.device_id == req.device_id) with
    | none =>
        ({ success := false, error := some "No seat allocation found for this device. Call validate first." }, st)
    | some alloc =>
      if !is_allocation_active cfg now alloc.last_heartbeat_at then
        ({ success := false, error := some "Seat allocation has expired. Call validate to reallocate." }, st)
      else
        let ev : AuditEvent :=
          { action := "heartbeat", entity_type := some "seat_allocation"
            entity_id := some (toString alloc.id)
            payload := payload_opt []
            client_ip := req.client_ip }
        ({ success := true },
         { st with
           seats := st.seats.map (refresh_seat req now alloc.id)
           audit_log := audit audit_ok ev st.audit_log })

/-- Embeds `license_service.release`. -/
def release (audit_ok : Bool) (req : LicenseRequest) (st : St) : Outcome × St :=
  match st.entitlements.find?
      (fun e => e.license_key == req.license_id && e.org_id == req.org_id) with
  | none =>
      ({ success := false, error := some "License not found for this organization" }, st)
  | some ent =>
    let new_seats :=
      st.seats.filter (fun r => !(r.entitlement_id == ent.id && r.device_id == req.device_id))
    if st.seats.length - new_seats.length == 0 then
      ({ success := false, error := some "No seat allocation found for this device" },
       { st with seats := new_seats })
    else
      let ev : AuditEvent :=
        { action := "release", entity_type := some "seat_allocation", entity_id := none
          payload := payload_opt [("entitlement_id", toString ent.id), ("device_id", req.device_id)]
          client_ip := req.client_ip }
      ({ success := true },
       { st with
         seats := new_seats
         audit_log := audit audit_ok ev st.audit_log })

/-- SQL COALESCE on two nullable values. -/
def coalesce {α : Type} (a b : Option α) : Option α :=
  match a with
  | some x => some x
  | none => b

/-- Embeds `trial_service.upsert_device`: INSERT ... ON DUPLICATE KEY UPDATE on the
`devices` table (`device_id` is the unique key).  On conflict:
`last_seen_at` takes the new value, `metadata = COALESCE(new, old)`,
`trial_used_at = COALESCE(old, new)`, `org_id = COALESCE(old, new)`. -/
def upsert_device (device_id : String) (org_id : Option String) (metadata : Option Metadata)
    (set_trial_used : Bool) (now : Int) (devices : List Device) : List Device :=
  let trial_used_at : Option Int := if set_trial_used then some now else none
  if devices.any (fun d => d.device_id == device_id) then
    devices.map (fun d =>
      if d.device_id == device_id then
        { d with
          last_seen_at := now
          metadata := coalesce metadata d.metadata
          trial_used_at := coalesce d.trial_used_at trial_used_at
          org_id := coalesce d.org_id (py_or_none org_id) }
      else d)
  else
    devices ++
      [{ device_id := device_id, org_id := py_or_none org_id, first_seen_at := now
         last_seen_at := now, trial_used_at := trial_used_at, metadata := metadata }]

/-- Embeds `trial_service.validate_trial`. -/
def validate_trial (cfg : Config) (audit_ok : Bool) (now : Int) (req : TrialRequest) (st : St) :
    TrialOutcome × St :=
  let metadata : Option Metadata :=
    some { hostname := req.hostname, os := req.os, app_version := req.app_version }
  match st.devices.find? (fun d => d.device_id == req.device_id) with
  | none =>
      let ev : AuditEvent :=
        { action := "trial_start", entity_type := some "device", entity_id := some req.device_id
          payload := payload_opt
            [("org_id", match req.org_id with | some o => o | none => "null")]
          client_ip := req.client_ip }
      ({ success := true, trial_active := some true, first_use := some true
         expires_at := match cfg.trial_duration_ms with
                       | some dur => some (now + dur)
                       | none => none },
       { st with
         devices := upsert_device req.device_id req.org_id metadata true now st.devices
         audit_log := audit audit_ok ev st.audit_log })
  | some device =>
    let trial_start : Int :=
      match device.trial_used_at with
      | some t => t
      | none => device.first_seen_at
    if (match cfg.trial_duration_ms with
        | some dur => decide (now - trial_start ≥ dur)
        | none => false) then
      let ev : AuditEvent :=
        { action := "trial_validate_fail", entity_type := some "device"
          entity_id := some req.device_id
          payload := payload_opt [("reason", "trial_expired")]
          client_ip := req.client_ip }
      ({ success := false, error := some "Trial has expired", trial_active := some false },
       { st with
         devices := upsert_device req.device_id req.org_id metadata false now st.devices
         audit_log := audit audit_ok ev st.audit_log })
    else
      ({ success := true, trial_active := some true, first_use := some false
         expires_at := match cfg.trial_duration_ms with
                       | some dur => some (trial_start + dur)
                       | none => none },
       { st with
         devices := upsert_device req.device_id req.org_id metadata
           device.trial_used_at.isNone now st.devices })

/-- The per-pair uniqueness invariant on `seat_allocations`: no two rows share
the same (`entitlement_id`, `device_id`). -/
def seat_pair_unique (seats : List SeatAllocation) : Prop :=
  seats.Pairwise (fun a b => ¬(a.entitlement_id = b.entitlement_id ∧ a.device_id = b.device_id))
/-! ### Concrete fixtures used by counterexamples and witnesses -/

/-- TTL of 600 s, trial duration unset (the config defaults). -/
def cfgA : Config := Config.ofSeconds 600 0

/-- TTL of 600 s, trial duration of 3600 s. -/
def cfgB : Config := Config.ofSeconds 600 3600

def reqA : LicenseRequest :=
  { license_id := "K", org_id := "o", device_id := "d"
    hostname := none, os := none, app_version := none, client_ip := some "1.2.3.4" }

def entA : Entitlement :=
  { id := 1, org_id := "o", license_key := "K", max_seats := 5
    valid_from := none, valid_until := none, status := "active" }

def seatA : SeatAllocation :=
  { id := 1, entitlement_id := 1, org_id := some "o", device_id := "d"
    hostname := none, os := none, app_version := none, client_ip := none
    allocated_at := 0, last_heartbeat_at := some 0, updated_at := none }

def stA : St :=
  { entitlements := [entA], seats := [seatA], devices := [], audit_log := [], next_seat_id := 2 }

/-- An entitlement whose window is inverted: already past `valid_until` yet
still before `valid_from`. -/
def entB : Entitlement :=
  { id := 2, org_id := "o", license_key := "K2", max_seats := 1
    valid_from := some 100, valid_until := some 50, status := "active" }

def reqB : LicenseRequest :=
  { license_id := "K2", org_id := "o", device_id := "d"
    hostname := none, os := none, app_version := none, client_ip := none }

def stB : St :=
  { entitlements := [entB], seats := [], devices := [], audit_log := [], next_seat_id := 1 }

def reqT : TrialRequest :=
  { device_id := "dev", org_id := some "og"
    hostname := some "h", os := none, app_version := none, client_ip := none }

def stT : St :=
  { entitlements := [], seats := [], devices := [], audit_log := [], next_seat_id := 1 }

/-! ### C5 -/

/-- C5: the activity test is a strict bound: an allocation is active iff
`now - last_heartbeat_at < HEARTBEAT_TTL`, so a heartbeat exactly TTL old (or
older, or absent) is never active, and one unit under TTL is active. -/
theorem C5_activity_strict_bound (cfg : Config) (now ts : Int) :
    (is_allocation_active cfg now (some ts) = true ↔ now - ts < cfg.heartbeat_ttl_ms)
    ∧ is_allocation_active cfg now none = false
    ∧ is_allocation_active cfg now (some (now - cfg.heartbeat_ttl_ms)) = false
    ∧ is_allocation_active cfg now (some (now - cfg.heartbeat_ttl_ms + 1)) = true := by
  refine ⟨by simp [is_allocation_active], rfl, ?_, ?_⟩
  · simp only [is_allocation_active, decide_eq_false_iff_not]
    omega
  · simp only [is_allocation_active, decide_eq_true_eq]
    omega

/-! ### C1 -/

/-- C1 counterexample: with a stale existing seat (heartbeat exactly TTL old),
`validate` succeeds but the returned allocation object is
`{seat_id, reattach := false}` with no `was_stale` key, refuting the claim
that the allocation carries `was_stale = true`. -/
theorem C1_counterexample :
    (validate cfgA true 600000 reqA stA).1.success = true
    ∧ (validate cfgA true 600000 reqA stA).1.allocation =
        some { seat_id := 1, reattach := false, was_stale := none } := by
  constructor <;> rfl

/-- C1 (amended): when the entitlement checks pass and the existing row of the device
row is stale, `validate` refreshes that row in place and returns success with
`reattach = false`; `was_stale = true` appears only in the payload of the audit event, never in the returned allocation. -/
theorem C1_stale_refresh (cfg : Config) (audit_ok : Bool) (now : Int) (req : LicenseRequest)
    (st : St) (ent : Entitlement) (ex : SeatAllocation)
    (hent : st.entitlements.find? (fun e => e.license_key == req.license_id) = some ent)
    (hstatus : ent.status = "active")
    (horg : ent.org_id = req.org_id)
    (hvu : window_expired now ent.valid_until = false)
    (hvf : window_not_yet_valid now ent.valid_from = false)
    (hex : (st.seats.filter (fun r => r.entitlement_id == ent.id)).find?
        (fun r => r.device_id == req.device_id) = some ex)
    (hstale : is_allocation_active cfg now ex.last_heartbeat_at = false) :
    (validate cfg audit_ok now req st).1 =
      { success := true
        allocation := some { seat_id := ex.id, reattach := false, was_stale := none } }
    ∧ (validate cfg audit_ok now req st).2.seats = st.seats.map (refresh_seat req now ex.id)
    ∧ (validate cfg audit_ok now req st).2.audit_log = audit audit_ok
        { action := "validate_success", entity_type := some "seat_allocation"
          entity_id := some (toString ex.id)
          payload := some [("reattach", "False"), ("was_stale", "True")]
          client_ip := req.client_ip } st.audit_log := by
  refine ⟨?_, ?_, ?_⟩ <;>
    simp [validate, hent, hstatus, horg, hvu, hvf, hex, hstale, payload_opt]

/-- C1 witness: the amended theorem applied to the fixture state. -/
theorem C1_stale_refresh_witness :
    (validate cfgA true 600000 reqA stA).1 =
      { success := true
        allocation := some { seat_id := seatA.id, reattach := false, was_stale := none } } :=
  (C1_stale_refresh cfgA true 600000 reqA stA entA seatA (by decide) rfl rfl rfl rfl
    (by decide) (by decide)).1

/-! ### C2 -/

/-- C2 counterexample: an active, org-matching entitlement with
`valid_until = 50 < now = 60 < valid_from = 100` fails with the `Expired`
outcome, not the `NotYetValid` one the claim requires. -/
theorem C2_counterexample :
    (validate cfgA true 60 reqB stB).1.error = some "License has expired"
    ∧ (validate cfgA true 60 reqB stB).1.error ≠ some "License is not yet valid" := by
  constructor <;> decide

/-- C2 (amended): in the time-window check of `validate` the expiry test precedes
the not-yet-valid test: when `valid_until` is set and before now the call
fails `Expired` (even if `valid_from` is after now); `NotYetValid` is returned
when the expiry guard is false and `valid_from` is after now. -/
theorem C2_expiry_precedes_not_yet_valid (cfg : Config) (audit_ok : Bool) (now : Int)
    (req : LicenseRequest) (st : St) (ent : Entitlement)
    (hent : st.entitlements.find? (fun e => e.license_key == req.license_id) = some ent)
    (hstatus : ent.status = "active")
    (horg : ent.org_id = req.org_id) :
    (window_expired now ent.valid_until = true →
      (validate cfg audit_ok now req st).1 =
        { success := false, error := some "License has expired" })
    ∧ (window_expired now ent.valid_until = false →
       window_not_yet_valid now ent.valid_from = true →
      (validate cfg audit_ok now req st).1 =
        { success := false, error := some "License is not yet valid" }) := by
  constructor
  · intro hvu
    simp [validate, hent, hstatus, horg, hvu]
  · intro hvu hvf
    simp [validate, hent, hstatus, horg, hvu, hvf]

/-- C2 witness: the amended theorem applied to the inverted-window fixture. -/
theorem C2_expiry_precedes_not_yet_valid_witness :
    (validate cfgA true 60 reqB stB).1 =
      { success := false, error := some "License has expired" } :=
  (C2_expiry_precedes_not_yet_valid cfgA true 60 reqB stB entB (by decide) rfl rfl).1
    (by decide)

/-! ### C3 -/

/-- C3 counterexample: with `TRIAL_DURATION` unset, the first `validateTrial`
for a fresh device still creates the row with `trial_used_at = now` rather
than leaving it null. -/
theorem C3_counterexample :
    ((validate_trial cfgA true 1000 reqT stT).2.devices.map Device.trial_used_at)
      = [some 1000] := by
  decide

/-- C3 (amended): on the first `validateTrial` for a device with no existing
record, the created row always has `trial_used_at` set to the time of the call
(whether or not a finite trial duration is configured), and the call returns
success with `first_use = true`, `trial_active = true` and
`expires_at = now + TRIAL_DURATION` when a duration is configured, null
otherwise. -/
theorem C3_first_trial (cfg : Config) (audit_ok : Bool) (now : Int) (req : TrialRequest)
    (st : St)
    (hnone : st.devices.find? (fun d => d.device_id == req.device_id) = none) :
    (validate_trial cfg audit_ok now req st).1 =
      { success := true, trial_active := some true, first_use := some true
        expires_at := match cfg.trial_duration_ms with
                      | some dur => some (now + dur)
                      | none => none }
    ∧ (validate_trial cfg audit_ok now req st).2.devices =
        st.devices ++
          [{ device_id := req.device_id, org_id := py_or_none req.org_id
             first_seen_at := now, last_seen_at := now, trial_used_at := some now
             metadata := some { hostname := req.hostname, os := req.os
                                app_version := req.app_version } }] := by
  have hany : st.devices.any (fun d => d.device_id == req.device_id) = false := by
    rw [List.any_eq_false]
    intro d hd
    exact List.find?_eq_none.mp hnone d hd
  constructor
  · simp [validate_trial, hnone]
  · simp [validate_trial, hnone, upsert_device, hany]

/-- C3 witness: the amended theorem at a fresh device with a 3600 s trial. -/
theorem C3_first_trial_witness :
    (validate_trial cfgB true 1000 reqT stT).1 =
      { success := true, trial_active := some true, first_use := some true
        expires_at := some 3601000 } :=
  (C3_first_trial cfgB true 1000 reqT stT (by decide)).1
/-! ### C6 -/

/-- C6: once the entitlement lookup of `heartbeat` succeeds, a missing allocation
row fails with the `NoAllocation` outcome and a stale one fails with the
`AllocationExpired` outcome; both failures leave the store untouched, so a
stale allocation is never resurrected by heartbeat. -/
theorem C6_heartbeat_failures (cfg : Config) (audit_ok : Bool) (now : Int)
    (req : LicenseRequest) (st : St) (ent : Entitlement)
    (hent : st.entitlements.find?
        (fun e => e.license_key == req.license_id && e.org_id == req.org_id
          && e.status == "active") = some ent) :
    (st.seats.find? (fun r => r.entitlement_id == ent.id && r.device_id == req.device_id)
        = none →
      heartbeat cfg audit_ok now req st =
        ({ success := false
           error := some "No seat allocation found for this device. Call validate first." }, st))
    ∧ (∀ alloc,
        st.seats.find? (fun r => r.entitlement_id == ent.id && r.device_id == req.device_id)
          = some alloc →
        is_allocation_active cfg now alloc.last_heartbeat_at = false →
        heartbeat cfg audit_ok now req st =
          ({ success := false
             error := some "Seat allocation has expired. Call validate to reallocate." }, st)) := by
  constructor
  · intro hmiss
    simp [heartbeat, hent, hmiss]
  · intro alloc halloc hstale
    simp [heartbeat, hent, halloc, hstale]

/-- C6 witness: the theorem applied to the fixture where the seat of the device is
exactly TTL old. -/
theorem C6_heartbeat_failures_witness :
    heartbeat cfgA true 600000 reqA stA =
      ({ success := false
         error := some "Seat allocation has expired. Call validate to reallocate." }, stA) :=
  (C6_heartbeat_failures cfgA true 600000 reqA stA entA (by decide)).2 seatA (by decide)
    (by decide)

/-! ### C7 -/

/-- C7: `release` is idempotent in effect: when the entitlement lookup
succeeds but no seat row exists for the (entitlement, device) pair, the call
fails with the `NoAllocationFound` outcome and the store is unchanged. -/
theorem C7_release_idempotent (audit_ok : Bool) (req : LicenseRequest) (st : St)
    (ent : Entitlement)
    (hent : st.entitlements.find?
        (fun e => e.license_key == req.license_id && e.org_id == req.org_id) = some ent)
    (hnone : ∀ r ∈ st.seats, ¬(r.entitlement_id = ent.id ∧ r.device_id = req.device_id)) :
    release audit_ok req st =
      ({ success := false, error := some "No seat allocation found for this device" }, st) := by
  have hfilter :
      st.seats.filter (fun r => !(r.entitlement_id == ent.id && r.device_id == req.device_id))
        = st.seats := by
    apply List.filter_eq_self.mpr
    intro r hr
    have h := hnone r hr
    simp only [Bool.not_eq_true', Bool.and_eq_false_iff, beq_eq_false_iff_ne, ne_eq]
    tauto
  simp only [release, hent, hfilter, Nat.sub_self]
  simp

/-- C7 witness: a release after the seat row is already gone. -/
theorem C7_release_idempotent_witness :
    release true reqA { stA with seats := [] } =
      ({ success := false, error := some "No seat allocation found for this device" },
       { stA with seats := [] }) :=
  C7_release_idempotent true reqA { stA with seats := [] } entA (by decide) (by simp)

/-! ### C8 -/

/-- Lemma: `upsert_device` never changes a non-null `trial_used_at` or `org_id` of a
row already in the table (the ON DUPLICATE KEY UPDATE clause coalesces the
old value first), and never removes a row. -/
theorem upsert_device_preserves (device_id : String) (org_id : Option String)
    (metadata : Option Metadata) (set_trial_used : Bool) (now : Int)
    (devices : List Device) (d : Device) (hd : d ∈ devices) :
    ∃ d2 ∈ upsert_device device_id org_id metadata set_trial_used now devices,
      d2.device_id = d.device_id
      ∧ (∀ t, d.trial_used_at = some t → d2.trial_used_at = some t)
      ∧ (∀ o, d.org_id = some o → d2.org_id = some o) := by
  simp only [upsert_device]
  split
  · refine ⟨_, List.mem_map_of_mem _ hd, ?_, ?_, ?_⟩
    · by_cases hid : (d.device_id == device_id) = true <;> simp [hid]
    · intro t ht
      by_cases hid : (d.device_id == device_id) = true <;> simp [hid, coalesce, ht]
    · intro o ho
      by_cases hid : (d.device_id == device_id) = true <;> simp [hid, coalesce, ho]
  · exact ⟨d, List.mem_append_left _ hd, rfl, fun t ht => ht, fun o ho => ho⟩

/-- Whatever branch `validate_trial` takes, its device-table write is a single
`upsert_device` call on the device of the request. -/
theorem validate_trial_devices_shape (cfg : Config) (audit_ok : Bool) (now : Int)
    (req : TrialRequest) (st : St) :
    ∃ stu, (validate_trial cfg audit_ok now req st).2.devices =
      upsert_device req.device_id req.org_id
        (some { hostname := req.hostname, os := req.os, app_version := req.app_version })
        stu now st.devices := by
  cases hfind : st.devices.find? (fun d0 => d0.device_id == req.device_id) with
  | none =>
    refine ⟨true, ?_⟩
    simp only [validate_trial, hfind]
  | some device =>
    cases hexp : (match cfg.trial_duration_ms with
        | some dur => decide (now - (match device.trial_used_at with
            | some t => t
            | none => device.first_seen_at) ≥ dur)
        | none => false) with
    | true =>
      refine ⟨false, ?_⟩
      simp only [validate_trial, hfind]
      rw [if_pos hexp]
    | false =>
      refine ⟨device.trial_used_at.isNone, ?_⟩
      simp only [validate_trial, hfind]
      rw [if_neg (by simp [hexp])]

/-- C8: every `validateTrial` call preserves first-writer-wins on the device
table: a row whose `trial_used_at` (resp. `org_id`) is already non-null keeps
exactly that value in the resulting state. -/
theorem C8_trial_first_writer_wins (cfg : Config) (audit_ok : Bool) (now : Int)
    (req : TrialRequest) (st : St) (d : Device) (hd : d ∈ st.devices) :
    ∃ d2 ∈ (validate_trial cfg audit_ok now req st).2.devices,
      d2.device_id = d.device_id
      ∧ (∀ t, d.trial_used_at = some t → d2.trial_used_at = some t)
      ∧ (∀ o, d.org_id = some o → d2.org_id = some o) := by
  obtain ⟨stu, heq⟩ := validate_trial_devices_shape cfg audit_ok now req st
  rw [heq]
  exact upsert_device_preserves req.device_id req.org_id _ stu now st.devices d hd

/-- C8 witness: a second trial call with a different org does not overwrite
the recorded `trial_used_at` or `org_id`. -/
theorem C8_trial_first_writer_wins_witness :
    ∃ d2 ∈ (validate_trial cfgA true 9000 reqT
        { stT with devices := [{ device_id := "dev", org_id := some "og0"
                                 first_seen_at := 5, last_seen_at := 5
                                 trial_used_at := some 5, metadata := none }] }).2.devices,
      d2.device_id = "dev" ∧ (∀ t, some 5 = some t → d2.trial_used_at = some t)
      ∧ (∀ o, some "og0" = some o → d2.org_id = some o) :=
  C8_trial_first_writer_wins cfgA true 9000 reqT
    { stT with devices := [{ device_id := "dev", org_id := some "og0"
                             first_seen_at := 5, last_seen_at := 5
                             trial_used_at := some 5, metadata := none }] }
    { device_id := "dev", org_id := some "og0", first_seen_at := 5, last_seen_at := 5
      trial_used_at := some 5, metadata := none } (by simp)
/-! ### C4 -/

/-- The UPDATE run by `validate`/`heartbeat` changes none of the key columns
of a seat row. -/
theorem refresh_seat_fields (req : LicenseRequest) (now : Int) (sid : Nat)
    (r : SeatAllocation) :
    (refresh_seat req now sid r).id = r.id
    ∧ (refresh_seat req now sid r).entitlement_id = r.entitlement_id
    ∧ (refresh_seat req now sid r).device_id = r.device_id := by
  unfold refresh_seat refreshed_row
  split <;> exact ⟨rfl, rfl, rfl⟩

/-- Updating rows in place preserves the one-row-per-pair invariant. -/
theorem seat_pair_unique_map_refresh (req : LicenseRequest) (now : Int) (sid : Nat)
    (seats : List SeatAllocation) (h : seat_pair_unique seats) :
    seat_pair_unique (seats.map (refresh_seat req now sid)) := by
  unfold seat_pair_unique at h ⊢
  refine h.map _ ?_
  intro a b hab
  obtain ⟨-, ha2, ha3⟩ := refresh_seat_fields req now sid a
  obtain ⟨-, hb2, hb3⟩ := refresh_seat_fields req now sid b
  rw [ha2, ha3, hb2, hb3]
  exact hab

/-- C4: when the requesting device already has a row for the entitlement
(active or stale), `validate` either leaves the seat table unchanged (a
failed check) or rewrites it row-for-row via the in-place UPDATE — never
inserting — so the row count and the one-row-per-pair invariant are
preserved; and when the checks pass and the row is active the call returns
success with `reattach = true`. -/
theorem C4_one_row_per_pair (cfg : Config) (audit_ok : Bool) (now : Int)
    (req : LicenseRequest) (st : St) (ent : Entitlement) (ex : SeatAllocation)
    (hent : st.entitlements.find? (fun e => e.license_key == req.license_id) = some ent)
    (hex : (st.seats.filter (fun r => r.entitlement_id == ent.id)).find?
        (fun r => r.device_id == req.device_id) = some ex) :
    ((validate cfg audit_ok now req st).2.seats = st.seats
      ∨ (validate cfg audit_ok now req st).2.seats = st.seats.map (refresh_seat req now ex.id))
    ∧ (validate cfg audit_ok now req st).2.seats.length = st.seats.length
    ∧ (seat_pair_unique st.seats → seat_pair_unique (validate cfg audit_ok now req st).2.seats)
    ∧ (ent.status = "active" → ent.org_id = req.org_id →
       window_expired now ent.valid_until = false →
       window_not_yet_valid now ent.valid_from = false →
       is_allocation_active cfg now ex.last_heartbeat_at = true →
       (validate cfg audit_ok now req st).1 =
         { success := true
           allocation := some { seat_id := ex.id, reattach := true, was_stale := none } }) := by
  have hdisj : (validate cfg audit_ok now req st).2.seats = st.seats
      ∨ (validate cfg audit_ok now req st).2.seats = st.seats.map (refresh_seat req now ex.id) := by
    cases hs : (ent.status != "active") with
    | true => left; simp [validate, hent, hs]
    | false =>
      cases ho : (ent.org_id != req.org_id) with
      | true => left; simp [validate, hent, hs, ho]
      | false =>
        cases hvu : window_expired now ent.valid_until with
        | true => left; simp [validate, hent, hs, ho, hvu]
        | false =>
          cases hvf : window_not_yet_valid now ent.valid_from with
          | true => left; simp [validate, hent, hs, ho, hvu, hvf]
          | false =>
            cases hact : is_allocation_active cfg now ex.last_heartbeat_at with
            | true => right; simp [validate, hent, hs, ho, hvu, hvf, hex, hact]
            | false => right; simp [validate, hent, hs, ho, hvu, hvf, hex, hact]
  refine ⟨hdisj, ?_, ?_, ?_⟩
  · rcases hdisj with h | h <;> rw [h]
    exact List.length_map st.seats (refresh_seat req now ex.id)
  · intro hu
    rcases hdisj with h | h <;> rw [h]
    · exact hu
    · exact seat_pair_unique_map_refresh req now ex.id st.seats hu
  · intro h1 h2 h3 h4 h5
    simp [validate, hent, h1, h2, h3, h4, hex, h5]

/-- C4 witness: revalidating the still-active fixture device. -/
theorem C4_one_row_per_pair_witness :
    (validate cfgA true 599999 reqA stA).1 =
      { success := true
        allocation := some { seat_id := seatA.id, reattach := true, was_stale := none } } :=
  (C4_one_row_per_pair cfgA true 599999 reqA stA entA seatA (by decide)
    (by decide)).2.2.2 rfl rfl (by decide) rfl (by decide)

/-! ### C9 -/

/-- Lemma: `validate` returns the same outcome and seat/device tables whether or not
the audit insert succeeds. -/
theorem validate_audit_irrelevant (cfg : Config) (now : Int) (req : LicenseRequest) (st : St) :
    (validate cfg true now req st).1 = (validate cfg false now req st).1
    ∧ (validate cfg true now req st).2.seats = (validate cfg false now req st).2.seats
    ∧ (validate cfg true now req st).2.devices = (validate cfg false now req st).2.devices := by
  refine ⟨?_, ?_, ?_⟩ <;> (unfold validate; simp only []; repeat first | rfl | split)

/-- Lemma: `heartbeat` returns the same outcome and seat/device tables whether or
not the audit insert succeeds. -/
theorem heartbeat_audit_irrelevant (cfg : Config) (now : Int) (req : LicenseRequest) (st : St) :
    (heartbeat cfg true now req st).1 = (heartbeat cfg false now req st).1
    ∧ (heartbeat cfg true now req st).2.seats = (heartbeat cfg false now req st).2.seats
    ∧ (heartbeat cfg true now req st).2.devices = (heartbeat cfg false now req st).2.devices := by
  refine ⟨?_, ?_, ?_⟩ <;> (unfold heartbeat; simp only []; repeat first | rfl | split)

/-- Lemma: `release` returns the same outcome and seat/device tables whether or not
the audit insert succeeds. -/
theorem release_audit_irrelevant (req : LicenseRequest) (st : St) :
    (release true req st).1 = (release false req st).1
    ∧ (release true req st).2.seats = (release false req st).2.seats
    ∧ (release true req st).2.devices = (release false req st).2.devices := by
  refine ⟨?_, ?_, ?_⟩ <;> (unfold release; simp only []; repeat first | rfl | split)

/-- Lemma: `validate_trial` returns the same outcome and seat/device tables whether
or not the audit insert succeeds. -/
theorem validate_trial_audit_irrelevant (cfg : Config) (now : Int) (req : TrialRequest)
    (st : St) :
    (validate_trial cfg true now req st).1 = (validate_trial cfg false now req st).1
    ∧ (validate_trial cfg true now req st).2.seats = (validate_trial cfg false now req st).2.seats
    ∧ (validate_trial cfg true now req st).2.devices
        = (validate_trial cfg false now req st).2.devices := by
  refine ⟨?_, ?_, ?_⟩ <;> (unfold validate_trial; simp only []; repeat first | rfl | split)

/-- C9: for each of the four calls, a failure of the audit insert changes
neither the returned outcome nor the resulting seat and device tables. -/
theorem C9_audit_failure_never_propagates (cfg : Config) (now : Int)
    (lreq : LicenseRequest) (treq : TrialRequest) (st : St) :
    ((validate cfg true now lreq st).1 = (validate cfg false now lreq st).1
      ∧ (validate cfg true now lreq st).2.seats = (validate cfg false now lreq st).2.seats
      ∧ (validate cfg true now lreq st).2.devices = (validate cfg false now lreq st).2.devices)
    ∧ ((heartbeat cfg true now lreq st).1 = (heartbeat cfg false now lreq st).1
      ∧ (heartbeat cfg true now lreq st).2.seats = (heartbeat cfg false now lreq st).2.seats
      ∧ (heartbeat cfg true now lreq st).2.devices = (heartbeat cfg false now lreq st).2.devices)
    ∧ ((release true lreq st).1 = (release false lreq st).1
      ∧ (release true lreq st).2.seats = (release false lreq st).2.seats
      ∧ (release true lreq st).2.devices = (release false lreq st).2.devices)
    ∧ ((validate_trial cfg true now treq st).1 = (validate_trial cfg false now treq st).1
      ∧ (validate_trial cfg true now treq st).2.seats
          = (validate_trial cfg false now treq st).2.seats
      ∧ (validate_trial cfg true now treq st).2.devices
          = (validate_trial cfg false now treq st).2.devices) :=
  ⟨validate_audit_irrelevant cfg now lreq st, heartbeat_audit_irrelevant cfg now lreq st,
   release_audit_irrelevant lreq st, validate_trial_audit_irrelevant cfg now treq st⟩

/-! ### C10 -/

/-- Counting after an in-place update that flips exactly one row (the unique
row matched by `key`) from not-`p` to `p` adds one to the count. -/
theorem countP_map_flip {α : Type} (l : List α) (p key : α → Bool) (g : α → α) (ex : α)
    (hcount : l.countP key = 1)
    (hkey : ∀ x ∈ l, key x = true → x = ex)
    (hpex : p ex = false)
    (hpg : p (g ex) = true) :
    (l.map (fun x => if key x then g x else x)).countP p = l.countP p + 1 := by
  induction l with
  | nil => simp at hcount
  | cons a tl ih =>
    rw [List.countP_cons] at hcount
    cases ha : key a with
    | true =>
      have hae : a = ex := hkey a (List.mem_cons_self a tl) ha
      rw [ha, if_pos rfl] at hcount
      have htl0 : tl.countP key = 0 := by omega
      have htl_map : tl.map (fun x => if key x then g x else x) = tl := by
        have hmap : tl.map (fun x => if key x then g x else x) = tl.map id := by
          refine List.map_congr_left ?_
          intro x hx
          have hkx : ¬ key x = true := List.countP_eq_zero.mp htl0 x hx
          simp [hkx]
        rw [hmap, List.map_id]
      have hke : key ex = true := hae ▸ ha
      simp only [List.map_cons, hae, hke, if_pos rfl, htl_map, List.countP_cons, hpg, hpex]
      simp [hpg, hpex]
    | false =>
      have htl1 : tl.countP key = 1 := by
        rw [ha, if_neg (by simp)] at hcount
        omega
      have hkey2 : ∀ x ∈ tl, key x = true → x = ex := fun x hx =>
        hkey x (List.mem_cons_of_mem a hx)
      have hrec := ih htl1 hkey2
      simp only [List.map_cons, ha, if_neg (by simp : ¬False), List.countP_cons, hrec]
      cases hpa : p a <;> simp [hpa]

/-- C10: even fully serialized, `validate` can push the active-seat count
above `max_seats`: if all `max_seats` seats of the entitlement are active and
the requesting device holds the (unique) stale row, the call skips the
capacity check, succeeds by refreshing that row, and leaves `max_seats + 1`
active allocations. -/
theorem C10_stale_refresh_overshoots_capacity (cfg : Config) (audit_ok : Bool) (now : Int)
    (req : LicenseRequest) (st : St) (ent : Entitlement) (ex : SeatAllocation)
    (hent : st.entitlements.find? (fun e => e.license_key == req.license_id) = some ent)
    (hstatus : ent.status = "active")
    (horg : ent.org_id = req.org_id)
    (hvu : window_expired now ent.valid_until = false)
    (hvf : window_not_yet_valid now ent.valid_from = false)
    (hex : (st.seats.filter (fun r => r.entitlement_id == ent.id)).find?
        (fun r => r.device_id == req.device_id) = some ex)
    (hstale : is_allocation_active cfg now ex.last_heartbeat_at = false)
    (hkeyuniq : ∀ r ∈ st.seats, r.id = ex.id → r = ex)
    (hcount : st.seats.countP (fun r => r.id == ex.id) = 1)
    (hfull : ((st.seats.filter (fun r => r.entitlement_id == ent.id)).filter
        (fun r => is_allocation_active cfg now r.last_heartbeat_at)).length = ent.max_seats)
    (httl : 0 < cfg.heartbeat_ttl_ms) :
    (validate cfg audit_ok now req st).1.success = true
    ∧ (((validate cfg audit_ok now req st).2.seats.filter
          (fun r => r.entitlement_id == ent.id)).filter
        (fun r => is_allocation_active cfg now r.last_heartbeat_at)).length
      = ent.max_seats + 1 := by
  have hseats : (validate cfg audit_ok now req st).2.seats
      = st.seats.map (refresh_seat req now ex.id) := by
    simp [validate, hent, hstatus, horg, hvu, hvf, hex, hstale]
  have hsucc : (validate cfg audit_ok now req st).1.success = true := by
    simp [validate, hent, hstatus, horg, hvu, hvf, hex, hstale]
  obtain ⟨hexmem, hexent⟩ := List.mem_filter.mp (List.mem_of_find?_eq_some hex)
  refine ⟨hsucc, ?_⟩
  rw [hseats]
  rw [← List.countP_eq_length_filter, List.countP_filter] at hfull ⊢
  rw [show st.seats.map (refresh_seat req now ex.id)
      = st.seats.map (fun x => if (x.id == ex.id) then refreshed_row req now x else x)
    from rfl]
  rw [countP_map_flip st.seats _ (fun r => r.id == ex.id) (refreshed_row req now) ex hcount
    (fun x hx hkx => hkeyuniq x hx (by simpa using hkx))
    (by simp [hstale])
    (by simp [refreshed_row, is_allocation_active, hexent]; omega)]
  rw [hfull]

/-- A full entitlement: one seat, held active by another device. -/
def entC : Entitlement :=
  { id := 3, org_id := "o", license_key := "K3", max_seats := 1
    valid_from := none, valid_until := none, status := "active" }

def reqC : LicenseRequest :=
  { license_id := "K3", org_id := "o", device_id := "d"
    hostname := none, os := none, app_version := none, client_ip := none }

/-- The seat of the other device, last heartbeat 1 ms after epoch (still active at
`now = 600000`). -/
def seatOther : SeatAllocation :=
  { id := 10, entitlement_id := 3, org_id := some "o", device_id := "other"
    hostname := none, os := none, app_version := none, client_ip := none
    allocated_at := 1, last_heartbeat_at := some 1, updated_at := none }

/-- The stale seat of the requester (heartbeat exactly TTL old at `now = 600000`). -/
def seatC : SeatAllocation :=
  { id := 11, entitlement_id := 3, org_id := some "o", device_id := "d"
    hostname := none, os := none, app_version := none, client_ip := none
    allocated_at := 0, last_heartbeat_at := some 0, updated_at := none }

def stC : St :=
  { entitlements := [entC], seats := [seatOther, seatC], devices := [], audit_log := []
    next_seat_id := 12 }

/-- C10 witness: `max_seats = 1`, one active seat held by another device, and
the stale row of the requester; validate succeeds and two seats are then active. -/
theorem C10_stale_refresh_overshoots_capacity_witness :
    (validate cfgA true 600000 reqC stC).1.success = true
    ∧ (((validate cfgA true 600000 reqC stC).2.seats.filter
          (fun r => r.entitlement_id == entC.id)).filter
        (fun r => is_allocation_active cfgA 600000 r.last_heartbeat_at)).length
      = entC.max_seats + 1 :=
  C10_stale_refresh_overshoots_capacity cfgA true 600000 reqC stC entC seatC
    (by decide) rfl rfl rfl rfl (by decide) (by decide)
    (by decide) (by decide) (by decide) (by decide)
